import Mathlib

/-!
Verification of the CFC order backend's workflow engine against its
specification.  The Python source (main.py, checkout.py, sync_service.py,
email_parser.py) is shallowly embedded: SQL tables become lists of rows,
endpoint handlers become pure state-transforming functions, Python floats
on monetary values become rationals, and the external rate providers become
oracle parameters.  Strings are modelled at the character-list level so that
every definition evaluates inside the kernel.
-/

/-! ## String helpers (ASCII models of Python's str methods) -/

/-- Model of Python's `str.upper()` restricted to ASCII, character by character. -/
def pyUpper (s : String) : String := String.mk (s.data.map Char.toUpper)

/-- Model of Python's `str.lower()` restricted to ASCII, character by character. -/
def pyLower (s : String) : String := String.mk (s.data.map Char.toLower)

/-- Characters before the first hyphen; the whole list when there is none.
Models Python's `sku.split('-')[0]`. -/
def takeUntilHyphen : List Char → List Char
  | [] => []
  | c :: cs => if c = '-' then [] else c :: takeUntilHyphen cs

/-- Trailing digits removed from a character list. -/
def stripTrailingDigits (l : List Char) : List Char :=
  (l.reverse.dropWhile Char.isDigit).reverse

/-- Substring occurrence test, modelling Python's `pat in hay`. -/
def containsSub (hay pat : List Char) : Bool :=
  match hay with
  | [] => pat.isEmpty
  | _ :: t => pat.isPrefixOf hay || containsSub t pat

/-! ## Two-decimal rounding (Python's `round(x, 2)`, half-to-even) -/

/-- Model of Python's `round(q, 2)`: scale by 100, round half to even, unscale. -/
def round2 (q : ℚ) : ℚ :=
  let x : ℚ := q * 100
  let f : ℤ := ⌊x⌋
  let n : ℤ :=
    if x - f < 1/2 then f
    else if 1/2 < x - f then f + 1
    else if f % 2 = 0 then f else f + 1
  (n : ℚ) / 100

/-- A rational that is a whole number of cents (two-decimal currency value). -/
def isCents (q : ℚ) : Prop := (q * 100).den = 1

theorem isCents_iff (q : ℚ) : isCents q ↔ ∃ n : ℤ, q = (n : ℚ) / 100 := by
  constructor
  · intro h
    refine ⟨(q * 100).num, ?_⟩
    have h2 : ((q * 100).num : ℚ) = q * 100 := by
      rw [← Rat.den_eq_one_iff]; exact h
    rw [h2]
    field_simp
  · rintro ⟨n, rfl⟩
    unfold isCents
    have h : (n : ℚ) / 100 * 100 = (n : ℚ) := by field_simp
    rw [h, Rat.den_intCast]

theorem isCents_add {a b : ℚ} (ha : isCents a) (hb : isCents b) : isCents (a + b) := by
  rw [isCents_iff] at ha hb ⊢
  obtain ⟨m, rfl⟩ := ha
  obtain ⟨n, rfl⟩ := hb
  exact ⟨m + n, by push_cast; ring⟩

theorem isCents_zero : isCents 0 := (isCents_iff 0).mpr ⟨0, by norm_num⟩

theorem isCents_intMul {a : ℚ} (k : ℤ) (ha : isCents a) : isCents (a * (k : ℚ)) := by
  rw [isCents_iff] at ha ⊢
  obtain ⟨m, rfl⟩ := ha
  exact ⟨m * k, by push_cast; ring⟩

/-- On a whole number of cents, `round2` is the identity. -/
theorem round2_cents {q : ℚ} (h : isCents q) : round2 q = q := by
  rw [isCents_iff] at h
  obtain ⟨n, rfl⟩ := h
  have hx : (n : ℚ) / 100 * 100 = (n : ℚ) := by field_simp
  unfold round2
  simp only [hx, Int.floor_intCast]
  have h0 : (n : ℚ) - (n : ℤ) = 0 := by norm_num
  rw [h0]
  norm_num

/-! ## Order checkpoints and the derived status view

From `SCHEMA_SQL` / `recreate_order_status_view` in main.py: six boolean
checkpoint columns on `orders`, and the `order_status` SQL view deriving
`current_status` with a CASE expression. -/

structure Checkpoints where
  payment_link_sent : Bool
  payment_received : Bool
  sent_to_warehouse : Bool
  warehouse_confirmed : Bool
  bol_sent : Bool
  is_complete : Bool
deriving DecidableEq, Repr

/-- The CASE expression of the `order_status` view, arm for arm. -/
def currentStatus (o : Checkpoints) : String :=
  if o.is_complete then "complete"
  else if o.bol_sent && !o.is_complete then "awaiting_shipment"
  else if o.warehouse_confirmed && !o.bol_sent then "needs_bol"
  else if o.sent_to_warehouse && !o.warehouse_confirmed then "awaiting_warehouse"
  else if o.payment_received && !o.sent_to_warehouse then "needs_warehouse_order"
  else if o.payment_link_sent && !o.payment_received then "awaiting_payment"
  else "needs_payment_link"

/-- The seven status values the view can produce. -/
def SEVEN_STATUSES : List String :=
  ["complete", "awaiting_shipment", "needs_bol", "awaiting_warehouse",
   "needs_warehouse_order", "awaiting_payment", "needs_payment_link"]

/-- The view's guarded arms in their textual precedence order. -/
def STATUS_ARMS : List (String × (Checkpoints → Bool)) :=
  [("complete", fun o => o.is_complete),
   ("awaiting_shipment", fun o => o.bol_sent && !o.is_complete),
   ("needs_bol", fun o => o.warehouse_confirmed && !o.bol_sent),
   ("awaiting_warehouse", fun o => o.sent_to_warehouse && !o.warehouse_confirmed),
   ("needs_warehouse_order", fun o => o.payment_received && !o.sent_to_warehouse),
   ("awaiting_payment", fun o => o.payment_link_sent && !o.payment_received)]

/-- First-match-wins evaluation of the precedence arms, defaulting to
`needs_payment_link` when no guard fires. -/
def firstMatchStatus (o : Checkpoints) : String :=
  ((STATUS_ARMS.find? (fun arm => arm.2 o)).map (fun arm => arm.1)).getD "needs_payment_link"

/-! ## Database rows

Rows of the SQL tables touched by the claims (SCHEMA_SQL in main.py).
Timestamps are modelled as `Option Nat` (`none` = SQL NULL, `some t` = a
stamped time `t`); `NOW()` becomes an explicit `now` argument. -/

structure OrderRow where
  order_id : String
  order_date : Option String
  customer_name : String
  company_name : String
  street : String
  street2 : String
  city : String
  state : String
  zip_code : String
  phone : String
  email_addr : String
  comments : String
  order_total : ℚ
  total_weight : ℚ
  warehouse_1 : Option String
  warehouse_2 : Option String
  warehouse_3 : Option String
  warehouse_4 : Option String
  is_trusted_customer : Bool
  cp : Checkpoints
  completed_at : Option Nat
deriving DecidableEq, Repr

structure LineItem where
  order_id : String
  sku : String
  sku_pfx : String
  product_name : String
  quantity : ℚ
  price : ℚ
  warehouse : Option String
deriving DecidableEq, Repr

/-- Row of `order_shipments`.  The carrier-specific quote columns
(`origin_zip`, `rl_quote_number`, `rl_quote_price`, `rl_customer_price`,
`rl_invoice_amount`, `has_oversized`, `li_quote_price`, `li_customer_price`,
`actual_cost`, `quote_url`, `ps_quote_url`, `ps_quote_price`,
`tracking_number`, `quote_price`, `customer_price`) are plain value copies
updated by the same `field = %s` pattern as `tracking`; they never influence
status handling or the completion roll-up and are not modelled. -/
structure Shipment where
  order_id : String
  shipment_id : String
  warehouse : String
  status : String
  tracking : Option String
  pro_number : Option String
  bol_sent : Bool
  bol_sent_at : Option Nat
  weight : Option ℚ
  ship_method : Option String
  sent_to_warehouse_at : Option Nat
  warehouse_confirmed_at : Option Nat
  shipped_at : Option Nat
  delivered_at : Option Nat
deriving DecidableEq, Repr

/-- Row of `order_events`; `event_data` models the JSON object as key/value
pairs exactly as `json.dumps` receives them. -/
structure Event where
  order_id : String
  event_type : String
  event_data : List (String × String)
  source : String
deriving DecidableEq, Repr

/-- Row of `warehouse_mapping`. -/
structure WhMap where
  sku_pfx : String
  warehouse_name : String
deriving DecidableEq, Repr

/-- Row of `trusted_customers` (the columns the sync queries). -/
structure TrustedCustomer where
  customer_name : String
  company_name : String
  email_addr : String
deriving DecidableEq, Repr

/-- The relational store, one list per table. -/
structure DB where
  orders : List OrderRow
  lineItems : List LineItem
  shipments : List Shipment
  events : List Event
  wmap : List WhMap
  trusted : List TrustedCustomer
deriving DecidableEq, Repr

/-! ## Sync reconciler (`sync_order_from_b2bwave`, main.py / sync_service.py) -/

/-- One entry of the snapshot's `order_products`, with the keys the sync
reads (`product_code`, `product_name`, `quantity`, `final_price`). -/
structure SnapItem where
  product_code : String
  product_name : String
  quantity : ℚ
  final_price : ℚ
deriving DecidableEq, Repr

/-- The normalized external order snapshot, field names as in the B2BWave
payload the sync reads. -/
structure Snapshot where
  id : String
  customer_name : String
  customer_company : String
  customer_email : String
  customer_phone : String
  address : String
  address2 : String
  city : String
  province : String
  postal_code : String
  comments_customer : String
  gross_total : ℚ
  total_weight : ℚ
  submitted_at : Option String
  order_products : List SnapItem
deriving DecidableEq, Repr

/-- SKU-prefix collection from the snapshot's products: for each product code
containing a hyphen, the part before the first hyphen, first occurrence
kept, empty prefixes skipped (main.py lines 886-897). -/
def collectPrefixes (items : List SnapItem) : List String :=
  items.foldl
    (fun acc it =>
      if it.product_code.data.contains '-' then
        let p := String.mk (takeUntilHyphen it.product_code.data)
        if p ≠ "" ∧ p ∉ acc then acc ++ [p] else acc
      else acc)
    []

/-- `get_warehouses_for_skus` (email_parser.py): distinct warehouse names of
mapping rows whose prefix matches one of the given prefixes
case-insensitively; row order follows the table. -/
def getWarehousesForSkus (wmap : List WhMap) (ps : List String) : List String :=
  if ps = [] then []
  else
    (wmap.filter (fun m => (ps.map pyUpper).contains (pyUpper m.sku_pfx))).foldl
      (fun acc m => if m.warehouse_name ∈ acc then acc else acc ++ [m.warehouse_name]) []

/-- Case-insensitive single-prefix lookup in `warehouse_mapping`
(`SELECT warehouse_name ... WHERE UPPER(sku_prefix) = UPPER(%s)`, first row). -/
def lookupWarehouse (wmap : List WhMap) (p : String) : Option String :=
  (wmap.find? (fun m => pyUpper m.sku_pfx == pyUpper p)).map (fun m => m.warehouse_name)

/-- Per-line-item prefix in the sync path: the part before the first hyphen
when the SKU has one, otherwise the empty string (main.py line 972). -/
def syncItemPfx (sku : String) : String :=
  if sku.data.contains '-' then String.mk (takeUntilHyphen sku.data) else ""

/-- Per-line-item warehouse resolution in the sync path (main.py 974-979):
only a non-empty prefix is looked up. -/
def syncItemWarehouse (wmap : List WhMap) (sku : String) : Option String :=
  let p := syncItemPfx sku
  if p ≠ "" then lookupWarehouse wmap p else none

/-- The line-item rows the sync inserts for an order (main.py 970-984). -/
def syncLineItems (wmap : List WhMap) (oid : String) (items : List SnapItem) : List LineItem :=
  items.map (fun it =>
    { order_id := oid
      sku := it.product_code
      sku_pfx := syncItemPfx it.product_code
      product_name := it.product_name
      quantity := it.quantity
      price := it.final_price
      warehouse := syncItemWarehouse wmap it.product_code })

/-- Delete-then-reinsert of an order's line items (main.py 966-984). -/
def replaceLineItems (cur : List LineItem) (oid : String) (new : List LineItem) : List LineItem :=
  cur.filter (fun li => li.order_id ≠ oid) ++ new

/-- First pass of the shipment-id normalization: Python's
`wh.replace(' & ', '-')`, leftmost-first. -/
def replaceAmp : List Char → List Char
  | ' ' :: '&' :: ' ' :: rest => '-' :: replaceAmp rest
  | c :: rest => c :: replaceAmp rest
  | [] => []

/-- Warehouse short name for the deterministic shipment id
(`wh.replace(' & ', '-').replace(' ', '-')`, main.py line 997). -/
def normWh (wh : String) : String :=
  String.mk ((replaceAmp wh.data).map (fun c => if c = ' ' then '-' else c))

/-- One fan-out step (main.py 994-1006): build the deterministic shipment id
and insert a fresh `needs_order` shipment only when no row with that id
exists. -/
def fanOutStep (oid : String) (cur : List Shipment) (wh : String) : List Shipment :=
  let sid := oid ++ "-" ++ normWh wh
  if cur.any (fun s => s.shipment_id == sid) then cur
  else
    cur ++ [{ order_id := oid, shipment_id := sid, warehouse := wh, status := "needs_order",
              tracking := none, pro_number := none, bol_sent := false, bol_sent_at := none,
              weight := none, ship_method := none, sent_to_warehouse_at := none,
              warehouse_confirmed_at := none, shipped_at := none, delivered_at := none }]

/-- Shipment fan-out over the resolved warehouse list. -/
def fanOut (oid : String) (cur : List Shipment) (whs : List String) : List Shipment :=
  whs.foldl (fanOutStep oid) cur

/-- The up-to-four warehouse slots computed from the snapshot
(main.py 906-911, 992-993): resolved names, `None` slots dropped. -/
def syncWarehouses (wmap : List WhMap) (items : List SnapItem) : List String :=
  let whs := getWarehousesForSkus wmap (collectPrefixes items)
  [whs[0]?, whs[1]?, whs[2]?, whs[3]?].filterMap id

/-- Trusted-customer check (main.py 913-924): case-insensitive match on
name, company or email against `trusted_customers`. -/
def syncIsTrusted (trusted : List TrustedCustomer) (snap : Snapshot) : Bool :=
  trusted.any (fun t =>
    pyLower t.customer_name == pyLower snap.customer_name ||
    pyLower t.company_name == pyLower snap.customer_company ||
    pyLower t.email_addr == pyLower snap.customer_email)

/-- The `INSERT ... ON CONFLICT (order_id) DO UPDATE` upsert of the order row
(main.py 929-963): customer/address/totals overwrite, the four warehouse
slots use `COALESCE(orders.warehouse_i, EXCLUDED.warehouse_i)` (keep the
existing value when set), `order_date` and the checkpoints are untouched on
update. -/
def syncUpsertOrder (db : DB) (snap : Snapshot) : List OrderRow :=
  let whs := getWarehousesForSkus db.wmap (collectPrefixes snap.order_products)
  let w1 := whs[0]?
  let w2 := whs[1]?
  let w3 := whs[2]?
  let w4 := whs[3]?
  let tr := syncIsTrusted db.trusted snap
  if db.orders.any (fun o => o.order_id == snap.id) then
    db.orders.map (fun o =>
      if o.order_id == snap.id then
        { o with
          customer_name := snap.customer_name
          company_name := snap.customer_company
          street := snap.address
          street2 := snap.address2
          city := snap.city
          state := snap.province
          zip_code := snap.postal_code
          phone := snap.customer_phone
          email_addr := snap.customer_email
          comments := snap.comments_customer
          order_total := snap.gross_total
          total_weight := snap.total_weight
          warehouse_1 := match o.warehouse_1 with | some v => some v | none => w1
          warehouse_2 := match o.warehouse_2 with | some v => some v | none => w2
          warehouse_3 := match o.warehouse_3 with | some v => some v | none => w3
          warehouse_4 := match o.warehouse_4 with | some v => some v | none => w4
          is_trusted_customer := tr }
      else o)
  else
    db.orders ++
      [{ order_id := snap.id
         order_date := snap.submitted_at
         customer_name := snap.customer_name
         company_name := snap.customer_company
         street := snap.address
         street2 := snap.address2
         city := snap.city
         state := snap.province
         zip_code := snap.postal_code
         phone := snap.customer_phone
         email_addr := snap.customer_email
         comments := snap.comments_customer
         order_total := snap.gross_total
         total_weight := snap.total_weight
         warehouse_1 := w1
         warehouse_2 := w2
         warehouse_3 := w3
         warehouse_4 := w4
         is_trusted_customer := tr
         cp := ⟨false, false, false, false, false, false⟩
         completed_at := none }]

/-- `sync_order_from_b2bwave` as one state transformation: upsert the order,
replace its line items, append the sync event, run shipment fan-out. -/
def syncOrder (db : DB) (snap : Snapshot) : DB :=
  { db with
    orders := syncUpsertOrder db snap
    lineItems := replaceLineItems db.lineItems snap.id
      (syncLineItems db.wmap snap.id snap.order_products)
    events := db.events ++
      [{ order_id := snap.id, event_type := "b2bwave_sync",
         event_data := [("sku_prefixes", String.intercalate "," (collectPrefixes snap.order_products))],
         source := "api" }]
    shipments := fanOut snap.id db.shipments (syncWarehouses db.wmap snap.order_products) }

/-! ## Shipment updates (`update_shipment`, main.py 2179-2344) -/

/-- The six-state shipment lifecycle, in order (main.py line 2204). -/
def valid_statuses : List String :=
  ["needs_order", "at_warehouse", "needs_bol", "ready_ship", "shipped", "delivered"]

/-- Position of a status in the lifecycle (for comparing progress). -/
def statusIdx (st : String) : Nat :=
  ((valid_statuses.indexOf st) : Nat)

/-- The accepted ship-method strings (main.py line 2208; the list also holds
`None`, which a non-empty string never equals). -/
def VALID_METHODS : List String :=
  ["LTL", "Pirateship", "Pickup", "BoxTruck", "LiDelivery"]

/-- The optional fields of a `PATCH /shipments/...` call that are modelled
(see `Shipment` on the omitted value-copy columns). -/
structure ShipmentPatch where
  status : Option String
  tracking : Option String
  pro_number : Option String
  weight : Option ℚ
  ship_method : Option String
  bol_sent : Option Bool
deriving DecidableEq, Repr

/-- Whether the dynamic `updates` list stays empty (`if not updates:`),
i.e. no parameter was provided. -/
def patchEmpty (p : ShipmentPatch) : Bool :=
  p.status.isNone && p.tracking.isNone && p.pro_number.isNone &&
  p.weight.isNone && p.ship_method.isNone && p.bol_sent.isNone

/-- Setting the status column plus the per-status timestamp
(main.py 2218-2229). -/
def applyStatus (now : Nat) (st : String) (s : Shipment) : Shipment :=
  let s1 := { s with status := st }
  if st = "at_warehouse" then { s1 with sent_to_warehouse_at := some now }
  else if st = "needs_bol" then { s1 with warehouse_confirmed_at := some now }
  else if st = "shipped" then { s1 with shipped_at := some now }
  else if st = "delivered" then { s1 with delivered_at := some now }
  else s1

/-- Application of all provided fields to one row, in the source's order. -/
def applyPatch (now : Nat) (p : ShipmentPatch) (s : Shipment) : Shipment :=
  let s := match p.status with | some st => applyStatus now st s | none => s
  let s := match p.tracking with | some v => { s with tracking := some v } | none => s
  let s := match p.pro_number with | some v => { s with pro_number := some v } | none => s
  let s := match p.weight with | some v => { s with weight := some v } | none => s
  let s := match p.ship_method with | some v => { s with ship_method := some v } | none => s
  let s := match p.bol_sent with
    | some b =>
      let s1 := { s with bol_sent := b }
      if b then { s1 with bol_sent_at := some now } else s1
    | none => s
  s

/-- Validation of a provided status: Python's
`if status and status not in valid_statuses` (an empty string is falsy and
slips through). -/
def badStatus (p : ShipmentPatch) : Bool :=
  match p.status with
  | some st => st ≠ "" && ¬ (valid_statuses.contains st)
  | none => false

/-- Validation of a provided ship method, same falsy-string pattern. -/
def badMethod (p : ShipmentPatch) : Bool :=
  match p.ship_method with
  | some m => m ≠ "" && ¬ (VALID_METHODS.contains m)
  | none => false

/-- `update_shipment`: validate, patch the row found by shipment id, then
run the completion roll-up — if every shipment of the parent order is
`delivered` (and there is at least one), mark the order complete and stamp
`completed_at` (main.py 2328-2342). -/
def updateShipment (db : DB) (now : Nat) (sid : String) (p : ShipmentPatch) :
    Except String DB :=
  if badStatus p then .error "invalid_status"
  else if badMethod p then .error "invalid_ship_method"
  else if patchEmpty p then .ok db
  else
    match db.shipments.find? (fun s => s.shipment_id == sid) with
    | none => .error "not_found"
    | some s0 =>
      let shipments := db.shipments.map (fun s =>
        if s.shipment_id == sid then applyPatch now p s else s)
      let oid := (applyPatch now p s0).order_id
      let sub := shipments.filter (fun s => s.order_id == oid)
      let orders :=
        if 0 < sub.length ∧ sub.length = (sub.filter (fun s => s.status == "delivered")).length
        then
          db.orders.map (fun o =>
            if o.order_id == oid then
              { o with cp := { o.cp with is_complete := true }, completed_at := some now }
            else o)
        else db.orders
      .ok { db with shipments := shipments, orders := orders }

/-! ## Administrative set-exact-state (`set_order_status`, main.py 2077-2131) -/

/-- The checkpoint pattern each target status implies (main.py 2084-2092);
`none` for an unrecognized status. -/
def status_checkpoints (status : String) : Option Checkpoints :=
  if status = "needs_payment_link" then some ⟨false, false, false, false, false, false⟩
  else if status = "awaiting_payment" then some ⟨true, false, false, false, false, false⟩
  else if status = "needs_warehouse_order" then some ⟨true, true, false, false, false, false⟩
  else if status = "awaiting_warehouse" then some ⟨true, true, true, false, false, false⟩
  else if status = "needs_bol" then some ⟨true, true, true, true, false, false⟩
  else if status = "awaiting_shipment" then some ⟨true, true, true, true, true, false⟩
  else if status = "complete" then some ⟨true, true, true, true, true, true⟩
  else none

/-- `set_order_status`: reject an unknown status, overwrite all six
checkpoints of the order with the implied pattern, 404 when the order does
not exist, and append one `status_change` event whose payload is
`{'new_status': status}`. -/
def setOrderStatus (db : DB) (oid status source : String) : Except String DB :=
  match status_checkpoints status with
  | none => .error "invalid_status"
  | some pat =>
    if db.orders.any (fun o => o.order_id == oid) then
      .ok { db with
        orders := db.orders.map (fun o =>
          if o.order_id == oid then { o with cp := pat } else o)
        events := db.events ++
          [{ order_id := oid, event_type := "status_change",
             event_data := [("new_status", status)], source := source }] }
    else .error "not_found"

/-- The seven statuses in workflow order, position `k` meaning the first `k`
checkpoints are set. -/
def STATUS_BY_POSITION : List String :=
  ["needs_payment_link", "awaiting_payment", "needs_warehouse_order",
   "awaiting_warehouse", "needs_bol", "awaiting_shipment", "complete"]

/-- The boolean pattern with the first `k` checkpoints (in workflow order)
true and the rest false. -/
def patternOfPosition (k : Nat) : Checkpoints :=
  ⟨decide (1 ≤ k), decide (2 ≤ k), decide (3 ≤ k),
   decide (4 ≤ k), decide (5 ≤ k), decide (6 ≤ k)⟩

/-! ## Checkout quoting pipeline (checkout.py) -/

/-- A warehouse's origin data (checkout.py `WAREHOUSES`). -/
structure WhInfo where
  name : String
  city : String
  state : String
  zip : String
deriving DecidableEq, Repr

/-- `WAREHOUSES` of checkout.py. -/
def WAREHOUSES : List (String × WhInfo) :=
  [("LI", ⟨"Liberty Industries", "Interlachen", "FL", "32148"⟩),
   ("DL", ⟨"DL Cabinetry", "Jacksonville", "FL", "32256"⟩),
   ("ROC", ⟨"ROC Cabinetry", "Norcross", "GA", "30071"⟩),
   ("GHI", ⟨"GHI Cabinets", "Palmetto", "FL", "34221"⟩),
   ("Go Bravura", ⟨"Go Bravura", "Houston", "TX", "77066"⟩),
   ("ARTISAN", ⟨"Artisan", "Houston", "TX", "77066"⟩),
   ("Cabinet & Stone", ⟨"Cabinet & Stone", "Houston", "TX", "77043"⟩),
   ("Cabinet & Stone CA", ⟨"Cabinet & Stone CA", "Paramount", "CA", "90723"⟩),
   ("DuraStone", ⟨"DuraStone", "Houston", "TX", "77037"⟩),
   ("L&C", ⟨"L&C Cabinetry", "Virginia Beach", "VA", "23454"⟩)]

/-- `SKU_WAREHOUSE_MAP` of checkout.py. -/
def SKU_WAREHOUSE_MAP : List (String × String) :=
  [("WSP", "LI"), ("GSP", "LI"), ("NBLK", "LI"),
   ("RW", "DL"), ("UFS", "DL"), ("CS", "DL"), ("EBK", "DL"),
   ("EWD", "ROC"), ("EGD", "ROC"), ("EMB", "ROC"), ("BC", "ROC"),
   ("DCW", "ROC"), ("DCT", "ROC"), ("DCH", "ROC"), ("NJGR", "ROC"), ("EJG", "ROC"),
   ("APW", "GHI"), ("AKS", "GHI"), ("GRSH", "GHI"), ("NOR", "GHI"), ("SNS", "GHI"), ("SNW", "GHI"),
   ("HGW", "Go Bravura"), ("EMW", "Go Bravura"), ("EGG", "Go Bravura"), ("URC", "Go Bravura"),
   ("WWW", "Go Bravura"), ("NDG", "Go Bravura"), ("NCC", "Go Bravura"), ("NBW", "Go Bravura"),
   ("BX", "Go Bravura"), ("URW", "Go Bravura"),
   ("HSS", "ARTISAN"), ("LGS", "ARTISAN"), ("LGSS", "ARTISAN"), ("DG", "ARTISAN"),
   ("EOK", "ARTISAN"), ("EWT", "ARTISAN"),
   ("BSN", "Cabinet & Stone"), ("SGCS", "Cabinet & Stone"), ("WOCS", "Cabinet & Stone"),
   ("EWSCS", "Cabinet & Stone"), ("CAWN", "Cabinet & Stone"), ("ESCS", "Cabinet & Stone"),
   ("CS-", "Cabinet & Stone"),
   ("MSCS", "Cabinet & Stone CA"),
   ("NSN", "DuraStone"), ("NBDS", "DuraStone"), ("CMEN", "DuraStone"), ("SIV", "DuraStone"),
   ("SHLS", "L&C"), ("NS", "L&C"), ("RBLS", "L&C"), ("MGLS", "L&C"), ("BG", "L&C"),
   ("EDD", "L&C"), ("SWNG", "L&C")]

/-- `OVERSIZED_KEYWORDS` of checkout.py. -/
def OVERSIZED_KEYWORDS : List String :=
  ["PANTRY", "OVEN", "TALL", "96", "BROOM", "LINEN", "UTILITY"]

/-- `get_warehouse_for_sku` (checkout.py 76-83): part before the first
hyphen (whole SKU when none), every digit removed, uppercased, then an
exact lookup in the map. -/
def get_warehouse_for_sku (sku : String) : Option String :=
  let base : List Char := if sku.data.contains '-' then takeUntilHyphen sku.data else sku.data
  let key : String := String.mk ((base.filter (fun c => !c.isDigit)).map Char.toUpper)
  (SKU_WAREHOUSE_MAP.find? (fun kv => kv.1 == key)).map (fun kv => kv.2)

/-- `is_oversized` (checkout.py 86-89): any keyword occurs in the
uppercased product name. -/
def is_oversized (product_name : String) : Bool :=
  OVERSIZED_KEYWORDS.any (fun kw => containsSub (product_name.data.map Char.toUpper) kw.data)

/-- One checkout line item with the keys the pipeline reads (`sku`,
`name`, `price`, `quantity`; `int(...)` on the quantity makes it an
integer). -/
structure CkItem where
  sku : String
  name : String
  price : ℚ
  quantity : ℤ
deriving DecidableEq, Repr

/-- Append an item to its warehouse's group, keeping dict insertion order
(`group_items_by_warehouse`, checkout.py 92-108). -/
def addToGroup (gs : List (String × List CkItem)) (k : String) (it : CkItem) :
    List (String × List CkItem) :=
  match gs with
  | [] => [(k, [it])]
  | (k0, its) :: rest =>
    if k0 = k then (k0, its ++ [it]) :: rest else (k0, its) :: addToGroup rest k it

/-- `group_items_by_warehouse`: unresolved items fall into the
`UNKNOWN` group. -/
def group_items_by_warehouse (items : List CkItem) : List (String × List CkItem) :=
  items.foldl
    (fun gs it => addToGroup gs ((get_warehouse_for_sku it.sku).getD "UNKNOWN") it) []

/-- `calculate_shipment_weight` (checkout.py 111-121): 30 lb per unit,
floored at 100 lb. -/
def calculate_shipment_weight (items : List CkItem) : ℚ :=
  max (items.foldl (fun t it => t + (it.quantity : ℚ) * 30) 0) 100

/-- The 70 lb small-package cutoff (checkout.py line 166). -/
def SMALL_PACKAGE_WEIGHT_LIMIT : ℚ := 70

/-- `select_shipping_method` (checkout.py 198-214); the item list is taken
but unused by the current weight-only policy, as in the source. -/
def select_shipping_method (weight : ℚ) (_items : List CkItem) : String :=
  if weight < SMALL_PACKAGE_WEIGHT_LIMIT then "small_package" else "ltl"

/-- Body of a successful R+L quote (`quote.customer_price`). -/
structure RlBody where
  customer_price : ℚ
deriving DecidableEq, Repr

/-- Response of the R+L quote call: a success flag and the optional
`quote` object. -/
structure RlResult where
  success : Bool
  quote : Option RlBody
deriving DecidableEq, Repr

/-- Cheapest option of a successful Shippo quote (`cheapest.amount`). -/
structure ShippoRate where
  amount : ℚ
deriving DecidableEq, Repr

/-- Response of the Shippo quote call. -/
structure ShippoResult where
  success : Bool
  cheapest : Option ShippoRate
deriving DecidableEq, Repr

/-- The R+L quote provider as an oracle:
origin zip, destination zip, weight, residential, oversized. -/
def RlOracle : Type := String → String → ℚ → Bool → Bool → RlResult

/-- The Shippo quote provider as an oracle:
origin zip, destination zip, weight, residential. -/
def ShippoOracle : Type := String → String → ℚ → Bool → ShippoResult

/-- One entry of the returned `shipments` list.  `quote_success` is the
`success` flag of the recorded quote dict; the optional fields are absent
(`none`) on the `UNKNOWN` entry, as in the source's dict literal. -/
structure GroupResult where
  warehouse : String
  warehouse_name : String
  origin_zip : Option String
  items : List CkItem
  weight : Option ℚ
  oversized : Option Bool
  shipping_method : String
  quote_success : Bool
  shipping_cost : ℚ
deriving DecidableEq, Repr

/-- The result of `calculate_order_shipping`. -/
structure ShippingTotals where
  shipments : List GroupResult
  total_shipping : ℚ
  total_items : ℚ
  grand_total : ℚ
  dest_zip : String
deriving DecidableEq, Repr

/-- The item subtotal loop (checkout.py 313-317): price times quantity
summed over every line item. -/
def itemsSubtotal (items : List CkItem) : ℚ :=
  items.foldl (fun acc it => acc + it.price * (it.quantity : ℚ)) 0

/-- One iteration of the per-group loop of `calculate_order_shipping`
(checkout.py 246-310), carrying the `shipments` list and the running
`total_shipping`. -/
def quoteStep (spQ : ShippoOracle) (rlQ : RlOracle) (dz : String)
    (acc : List GroupResult × ℚ) (g : String × List CkItem) :
    List GroupResult × ℚ :=
  if g.1 = "UNKNOWN" then
    (acc.1 ++ [{ warehouse := "UNKNOWN", warehouse_name := "Unknown Warehouse",
                 origin_zip := none, items := g.2, weight := none, oversized := none,
                 shipping_method := "unknown", quote_success := false, shipping_cost := 0 }],
     acc.2)
  else
    match (WAREHOUSES.find? (fun kv => kv.1 == g.1)).map (fun kv => kv.2) with
    | none => acc
    | some wh =>
      let weight := calculate_shipment_weight g.2
      let oversized := g.2.any (fun it => is_oversized it.name)
      let method := select_shipping_method weight g.2
      if method = "small_package" then
        let q := spQ wh.zip dz weight true
        let cost : ℚ :=
          if q.success then (match q.cheapest with | some c => c.amount | none => 0) else 0
        (acc.1 ++ [{ warehouse := g.1, warehouse_name := wh.name, origin_zip := some wh.zip,
                     items := g.2, weight := some weight, oversized := some oversized,
                     shipping_method := method, quote_success := q.success,
                     shipping_cost := cost }],
         acc.2 + cost)
      else
        let q := rlQ wh.zip dz weight true oversized
        let cost : ℚ :=
          if q.success then (match q.quote with | some b => b.customer_price | none => 0) else 0
        (acc.1 ++ [{ warehouse := g.1, warehouse_name := wh.name, origin_zip := some wh.zip,
                     items := g.2, weight := some weight, oversized := some oversized,
                     shipping_method := method, quote_success := q.success,
                     shipping_cost := cost }],
         acc.2 + cost)

/-- The whole per-group loop. -/
def quoteGroups (spQ : ShippoOracle) (rlQ : RlOracle) (dz : String)
    (gs : List (String × List CkItem)) : List GroupResult × ℚ :=
  gs.foldl (quoteStep spQ rlQ dz) ([], 0)

/-- `calculate_order_shipping` (checkout.py 217-325): group, quote each
group, then assemble the rounded totals. -/
def calculate_order_shipping (spQ : ShippoOracle) (rlQ : RlOracle)
    (order_items : List CkItem) (dz : String) : ShippingTotals :=
  let acc := quoteGroups spQ rlQ dz (group_items_by_warehouse order_items)
  { shipments := acc.1
    total_shipping := round2 acc.2
    total_items := round2 (itemsSubtotal order_items)
    grand_total := round2 (itemsSubtotal order_items + acc.2)
    dest_zip := dz }

/-- Definition following the spec's words in §4.1 for comparison with the
source: the prefix preceding the first hyphen (or the whole SKU when none),
with only TRAILING digits stripped, uppercased and looked up. -/
def resolveRouterSpec (sku : String) : Option String :=
  let base : List Char := if sku.data.contains '-' then takeUntilHyphen sku.data else sku.data
  let key : String := String.mk ((stripTrailingDigits base).map Char.toUpper)
  (SKU_WAREHOUSE_MAP.find? (fun kv => kv.1 == key)).map (fun kv => kv.2)

/-- Definition following the amended claim's words: same algorithm but with
EVERY digit removed from the prefix, as the source does. -/
def resolveRouterAmended (sku : String) : Option String :=
  let key : String :=
    String.mk (((takeUntilHyphen sku.data).filter (fun c => !c.isDigit)).map Char.toUpper)
  (SKU_WAREHOUSE_MAP.find? (fun kv => kv.1 == key)).map (fun kv => kv.2)

/-! ## Polling concurrency model (`run_auto_sync` / `sync_from_b2bwave`)

The global flag `auto_sync_running` (main.py 163-164) together with ghost
counters for how many background-poll iterations and manual sync requests
are executing.  Each transition mirrors one code point; nothing in main.py
or sync_service.py ever reads `auto_sync_running` before starting a sync. -/

structure SyncFlags where
  auto_sync_running : Bool
  autoInFlight : Nat
  manualInFlight : Nat
deriving DecidableEq, Repr

/-- The transitions of the polling/manual-sync system:
* `autoBegin` — the single background thread enters an iteration of
  `run_auto_sync`'s loop and sets the flag (main.py 1038); the thread is
  sequential, so it only begins when it is not already running;
* `autoEnd` — the `finally` clause clears the flag (main.py 1078);
* `manualBegin` — a `POST /b2bwave/sync` request enters
  `sync_from_b2bwave` (main.py 1413-1447), whose body never examines
  `auto_sync_running`, so the step is enabled in every state;
* `manualEnd` — a manual sync request returns. -/
inductive SyncStep : SyncFlags → SyncFlags → Prop where
  | autoBegin (s : SyncFlags) (h : s.autoInFlight = 0) :
      SyncStep s { s with auto_sync_running := true, autoInFlight := 1 }
  | autoEnd (s : SyncFlags) (h : s.autoInFlight = 1) :
      SyncStep s { s with auto_sync_running := false, autoInFlight := 0 }
  | manualBegin (s : SyncFlags) :
      SyncStep s { s with manualInFlight := s.manualInFlight + 1 }
  | manualEnd (s : SyncFlags) (h : 0 < s.manualInFlight) :
      SyncStep s { s with manualInFlight := s.manualInFlight - 1 }

/-- Startup state: flag clear, nothing in flight (main.py 163-164). -/
def syncInit : SyncFlags := ⟨false, 0, 0⟩

/-- States reachable from startup. -/
def SyncReachable (s : SyncFlags) : Prop := Relation.ReflTransGen SyncStep syncInit s

/-! ## Claim C1 — the derived status view -/

/-- C1: for every combination of the six checkpoint booleans, the derived
current status is exactly one of the seven named values, and it equals the
first-match-wins evaluation of the precedence arms; being a function of the
checkpoints alone, it is a pure read and is never stored. -/
theorem derived_status_seven_precedence :
    ∀ o : Checkpoints,
      currentStatus o ∈ SEVEN_STATUSES ∧ currentStatus o = firstMatchStatus o := by
  intro o
  obtain ⟨a, b, c, d, e, f⟩ := o
  cases a <;> cases b <;> cases c <;> cases d <;> cases e <;> cases f <;>
    exact ⟨by decide, by decide⟩

/-! ## Claim C9 — the polling guard -/

/-- C9 counterexample: a state with both a background polling cycle and a
manual sync in flight is reachable — the manual sync endpoint starts even
while `auto_sync_running` is set, so mutual exclusion fails. -/
theorem manual_sync_overlaps_poll_cycle :
    ∃ s : SyncFlags, SyncReachable s ∧ s.auto_sync_running = true ∧
      2 ≤ s.autoInFlight + s.manualInFlight := by
  refine ⟨⟨true, 1, 1⟩, ?_, rfl, by norm_num⟩
  have h1 : SyncStep syncInit ⟨true, 1, 0⟩ := SyncStep.autoBegin syncInit rfl
  have h2 : SyncStep ⟨true, 1, 0⟩ ⟨true, 1, 1⟩ := SyncStep.manualBegin ⟨true, 1, 0⟩
  exact Relation.ReflTransGen.head h1 (Relation.ReflTransGen.single h2)

/-- C9 (amended): the background polling loop never overlaps itself (it is
one sequential thread), and the `auto_sync_running` flag is only reported,
never checked — a manual sync request is enabled in every state, including
mid-cycle, rather than being rejected or becoming a no-op. -/
theorem auto_sync_flag_unchecked :
    (∀ s : SyncFlags, SyncReachable s → s.autoInFlight ≤ 1)
    ∧ (∀ s : SyncFlags, SyncStep s { s with manualInFlight := s.manualInFlight + 1 }) := by
  constructor
  · intro s h
    induction h with
    | refl => decide
    | tail _ step ih =>
      cases step with
      | autoBegin h => simp
      | autoEnd h => simp
      | manualBegin => simpa using ih
      | manualEnd h => simpa using ih
  · intro s
    exact SyncStep.manualBegin s

/-! ## Claim C6 — the warehouse router -/

/-- A single-row warehouse mapping for the sync-path demonstration. -/
def c6Wmap : List WhMap := [⟨"WSP", "Liberty Industries"⟩]

/-- C6 counterexample: the router does not strip only trailing digits.  On
`W1SP` the code removes every digit and resolves warehouse `LI`, while the
claimed algorithm (trailing digits only) finds no mapping; and the sync
path's line-item resolution never uses the whole SKU when it lacks a
hyphen — `WSP` stays unresolved there even though the mapping matches. -/
theorem router_digit_strip_cex :
    get_warehouse_for_sku "W1SP" = some "LI"
    ∧ resolveRouterSpec "W1SP" = none
    ∧ syncItemWarehouse c6Wmap "WSP" = none
    ∧ lookupWarehouse c6Wmap "WSP" = some "Liberty Industries" := by
  refine ⟨by decide, by decide, by decide, by decide⟩

theorem not_mem_of_contains_eq_false {l : List Char} {c : Char}
    (h : l.contains c = false) : ¬ c ∈ l := by
  intro hmem
  have h2 : l.contains c = true := by simpa [List.contains] using List.elem_iff.mpr hmem
  rw [h2] at h
  simp at h

theorem takeUntilHyphen_of_not_contains :
    ∀ l : List Char, l.contains '-' = false → takeUntilHyphen l = l := by
  intro l h
  induction l with
  | nil => rfl
  | cons c cs ih =>
    simp only [List.contains_cons, Bool.or_eq_false_iff] at h
    obtain ⟨h1, h2⟩ := h
    have hc : ¬ c = '-' := by
      intro hc
      subst hc
      simp at h1
    simp [takeUntilHyphen, hc, ih h2]

theorem addToGroup_key_mem (gs : List (String × List CkItem)) (k : String) (it : CkItem) :
    ∃ its, (k, its) ∈ addToGroup gs k it ∧ it ∈ its := by
  induction gs with
  | nil => exact ⟨[it], by simp [addToGroup], by simp⟩
  | cons hd tl ih =>
    obtain ⟨k0, its0⟩ := hd
    by_cases h : k0 = k
    · subst h
      exact ⟨its0 ++ [it], by simp [addToGroup], by simp⟩
    · obtain ⟨its, hmem, hit⟩ := ih
      exact ⟨its, by simp [addToGroup, h]; right; exact hmem, hit⟩

theorem addToGroup_preserve (gs : List (String × List CkItem)) (k : String) (it : CkItem)
    (kx : String) (itsx : List CkItem) (hx : (kx, itsx) ∈ gs) :
    ∃ its, (kx, its) ∈ addToGroup gs k it ∧ itsx ⊆ its := by
  induction gs with
  | nil => simp at hx
  | cons hd tl ih =>
    obtain ⟨k0, its0⟩ := hd
    rcases List.mem_cons.mp hx with hx0 | hxtl
    · obtain ⟨hk, hits⟩ := Prod.mk.injEq .. ▸ hx0
      subst hk; subst hits
      by_cases h : kx = k
      · subst h
        exact ⟨itsx ++ [it], by simp [addToGroup], by simp⟩
      · exact ⟨itsx, by simp [addToGroup, h], by simp⟩
    · by_cases h : k0 = k
      · subst h
        exact ⟨itsx, by simp [addToGroup]; right; exact hxtl, by simp⟩
      · obtain ⟨its, hmem, hsub⟩ := ih hxtl
        exact ⟨its, by simp [addToGroup, h]; right; exact hmem, hsub⟩

theorem groupFold_preserve (items : List CkItem) :
    ∀ (gs : List (String × List CkItem)) (kx : String) (itsx : List CkItem),
      (kx, itsx) ∈ gs →
      ∃ its, (kx, its) ∈ items.foldl
          (fun gs it => addToGroup gs ((get_warehouse_for_sku it.sku).getD "UNKNOWN") it) gs
        ∧ itsx ⊆ its := by
  induction items with
  | nil => intro gs kx itsx hx; exact ⟨itsx, by simpa using hx, by simp⟩
  | cons hd tl ih =>
    intro gs kx itsx hx
    obtain ⟨its1, h1, hsub1⟩ :=
      addToGroup_preserve gs ((get_warehouse_for_sku hd.sku).getD "UNKNOWN") hd kx itsx hx
    obtain ⟨its2, h2, hsub2⟩ := ih _ kx its1 h1
    exact ⟨its2, by simpa using h2, fun x hx2 => hsub2 (hsub1 hx2)⟩

theorem groupFold_item (items : List CkItem) :
    ∀ (gs : List (String × List CkItem)), ∀ it ∈ items,
      ∃ its, ((get_warehouse_for_sku it.sku).getD "UNKNOWN", its) ∈ items.foldl
          (fun gs it => addToGroup gs ((get_warehouse_for_sku it.sku).getD "UNKNOWN") it) gs
        ∧ it ∈ its := by
  induction items with
  | nil => intro gs it hit; simp at hit
  | cons hd tl ih =>
    intro gs it hit
    rcases List.mem_cons.mp hit with rfl | htl
    · obtain ⟨its1, h1, hit1⟩ :=
        addToGroup_key_mem gs ((get_warehouse_for_sku it.sku).getD "UNKNOWN") it
      obtain ⟨its2, h2, hsub2⟩ := groupFold_preserve tl _ _ its1 h1
      exact ⟨its2, by simpa using h2, hsub2 hit1⟩
    · obtain ⟨its, hmem, hit2⟩ := ih _ it htl
      exact ⟨its, by simpa using hmem, hit2⟩

theorem group_unknown_item (items : List CkItem) (it : CkItem) (hit : it ∈ items)
    (hn : get_warehouse_for_sku it.sku = none) :
    ∃ its, ("UNKNOWN", its) ∈ group_items_by_warehouse items ∧ it ∈ its := by
  have h := groupFold_item items [] it hit
  rw [hn] at h
  simpa [group_items_by_warehouse] using h

/-- C6 (amended): the checkout router takes the prefix before the first
hyphen (the whole SKU without one), removes EVERY digit — not only trailing
ones — uppercases, and looks the key up; an unresolved item is classified
into the `UNKNOWN` group rather than failing the order.  The sync path's
line-item resolution additionally never resolves a SKU that has no hyphen. -/
theorem router_strips_all_digits :
    (∀ sku : String, get_warehouse_for_sku sku = resolveRouterAmended sku)
    ∧ (∀ items : List CkItem, ∀ it ∈ items, get_warehouse_for_sku it.sku = none →
        ∃ its, ("UNKNOWN", its) ∈ group_items_by_warehouse items ∧ it ∈ its)
    ∧ (∀ (wmap : List WhMap) (sku : String), sku.data.contains '-' = false →
        syncItemWarehouse wmap sku = none) := by
  refine ⟨?_, ?_, ?_⟩
  · intro sku
    by_cases hc : sku.data.contains '-'
    · have hm : '-' ∈ sku.data := by simpa using hc
      simp [get_warehouse_for_sku, resolveRouterAmended, hm]
    · simp only [Bool.not_eq_true] at hc
      have hm : ¬ '-' ∈ sku.data := not_mem_of_contains_eq_false hc
      simp [get_warehouse_for_sku, resolveRouterAmended, hm,
        takeUntilHyphen_of_not_contains sku.data hc]
  · intro items it hit hn
    exact group_unknown_item items it hit hn
  · intro wmap sku hc
    have hm : ¬ '-' ∈ sku.data := not_mem_of_contains_eq_false hc
    simp [syncItemWarehouse, syncItemPfx, hm]

/-! ## Claim C7 — administrative set-exact-state -/

/-- An order row with defaults, as freshly synced rows have them. -/
def mkOrder (oid : String) (cp : Checkpoints) : OrderRow :=
  { order_id := oid, order_date := none, customer_name := "", company_name := "",
    street := "", street2 := "", city := "", state := "", zip_code := "", phone := "",
    email_addr := "", comments := "", order_total := 0, total_weight := 0,
    warehouse_1 := none, warehouse_2 := none, warehouse_3 := none, warehouse_4 := none,
    is_trusted_customer := false, cp := cp, completed_at := none }

/-- A shipment row with defaults beyond the given status. -/
def mkShipment (oid sid wh st : String) : Shipment :=
  { order_id := oid, shipment_id := sid, warehouse := wh, status := st,
    tracking := none, pro_number := none, bol_sent := false, bol_sent_at := none,
    weight := none, ship_method := none, sent_to_warehouse_at := none,
    warehouse_confirmed_at := none, shipped_at := none, delivered_at := none }

def c7Order : OrderRow := mkOrder "5307" ⟨true, true, true, true, true, true⟩

def c7Db : DB :=
  { orders := [c7Order], lineItems := [], shipments := [], events := [],
    wmap := [], trusted := [] }

/-- C7 counterexample: the single audit event appended by
`set_order_status` records only the NEW status — on an order whose previous
derived state is `complete`, the event payload is exactly
`new_status = needs_bol` and mentions the previous state nowhere, so the
call does not record the previous and new states. -/
theorem set_status_event_lacks_previous :
    ∃ db' : DB, setOrderStatus c7Db "5307" "needs_bol" "web_ui" = Except.ok db'
      ∧ currentStatus c7Order.cp = "complete"
      ∧ db'.events = [{ order_id := "5307", event_type := "status_change",
                        event_data := [("new_status", "needs_bol")], source := "web_ui" }]
      ∧ (∀ e ∈ db'.events, ∀ kv ∈ e.event_data, kv.1 = "new_status" ∧ kv.2 = "needs_bol") := by
  refine ⟨_, rfl, by decide, by decide, by decide⟩

/-- C7 (amended): `setExactState('needs_bol')` overwrites all six
checkpoints with the pattern implied by the target's position
(`payment_link_sent`, `payment_received`, `sent_to_warehouse`,
`warehouse_confirmed` true; `bol_sent`, `is_complete` false), appends
exactly one audit event — which records the new status only, not the
previous state — and every recognized target maps to the boolean pattern of
its position in the workflow order. -/
theorem set_exact_state_pattern (db : DB) (oid source : String) (db' : DB)
    (h : setOrderStatus db oid "needs_bol" source = Except.ok db') :
    (∀ o ∈ db'.orders, o.order_id = oid → o.cp = ⟨true, true, true, true, false, false⟩)
    ∧ db'.events = db.events ++
        [{ order_id := oid, event_type := "status_change",
           event_data := [("new_status", "needs_bol")], source := source }]
    ∧ (∀ k : Fin 7, status_checkpoints (STATUS_BY_POSITION.getD k.1 "")
        = some (patternOfPosition k.1)) := by
  have hsc : status_checkpoints "needs_bol" = some ⟨true, true, true, true, false, false⟩ := rfl
  unfold setOrderStatus at h
  simp only [hsc] at h
  by_cases ha : (db.orders.any fun o => o.order_id == oid) = true
  · rw [if_pos ha] at h
    injection h with h2
    subst h2
    refine ⟨?_, rfl, by decide⟩
    intro o ho hoid
    obtain ⟨o0, ho0, rfl⟩ := List.mem_map.mp ho
    by_cases hb : (o0.order_id == oid) = true
    · rw [if_pos hb]
    · rw [if_neg hb] at hoid
      exact absurd (beq_iff_eq.mpr hoid) hb
  · rw [if_neg ha] at h
    exact absurd h (by simp)

def c7wDb : DB :=
  { orders := [mkOrder "88" ⟨false, false, false, false, false, false⟩], lineItems := [],
    shipments := [], events := [], wmap := [], trusted := [] }

def c7wOut : DB :=
  { orders := [mkOrder "88" ⟨true, true, true, true, false, false⟩], lineItems := [],
    shipments := [],
    events := [{ order_id := "88", event_type := "status_change",
                 event_data := [("new_status", "needs_bol")], source := "api" }],
    wmap := [], trusted := [] }

/-- C7 witness: the amended theorem applied to a concrete fresh order. -/
theorem set_exact_state_pattern_witness :
    (∀ o ∈ c7wOut.orders, o.order_id = "88" → o.cp = ⟨true, true, true, true, false, false⟩)
    ∧ c7wOut.events = c7wDb.events ++
        [{ order_id := "88", event_type := "status_change",
           event_data := [("new_status", "needs_bol")], source := "api" }]
    ∧ (∀ k : Fin 7, status_checkpoints (STATUS_BY_POSITION.getD k.1 "")
        = some (patternOfPosition k.1)) :=
  set_exact_state_pattern c7wDb "88" "api" c7wOut rfl

/-! ## Claims C3 and C4 — shipment lifecycle updates and the completion roll-up -/

theorem applyStatus_status (now : Nat) (st : String) (s : Shipment) :
    (applyStatus now st s).status = st := by
  unfold applyStatus
  split_ifs <;> rfl

theorem applyStatus_order_id (now : Nat) (st : String) (s : Shipment) :
    (applyStatus now st s).order_id = s.order_id := by
  unfold applyStatus
  split_ifs <;> rfl

theorem applyPatch_order_id (now : Nat) (p : ShipmentPatch) (s : Shipment) :
    (applyPatch now p s).order_id = s.order_id := by
  unfold applyPatch
  cases p.status <;> cases p.tracking <;> cases p.pro_number <;> cases p.weight <;>
    cases p.ship_method <;> rcases p.bol_sent with _ | (_ | _) <;>
    simp [applyStatus_order_id]

theorem applyPatch_status (now : Nat) (p : ShipmentPatch) (s : Shipment) (st : String)
    (hst : p.status = some st) : (applyPatch now p s).status = st := by
  unfold applyPatch
  rw [hst]
  cases p.tracking <;> cases p.pro_number <;> cases p.weight <;>
    cases p.ship_method <;> rcases p.bol_sent with _ | (_ | _) <;>
    simp [applyStatus_status]

theorem patchEmpty_of_status (p : ShipmentPatch) (st : String) (hst : p.status = some st) :
    patchEmpty p = false := by
  simp [patchEmpty, hst]

/-- What a successful `update_shipment` call does: the row found by id is
patched (every row carrying that id, as the SQL `WHERE` does), and the
orders table is rewritten exactly when the roll-up condition on the parent
order's shipments holds. -/
theorem updateShipment_ok_spec (db : DB) (now : Nat) (sid : String) (p : ShipmentPatch)
    (db' : DB) (s0 : Shipment)
    (hf : db.shipments.find? (fun s => s.shipment_id == sid) = some s0)
    (hne : patchEmpty p = false)
    (h : updateShipment db now sid p = Except.ok db') :
    db'.shipments = db.shipments.map
      (fun s => if s.shipment_id == sid then applyPatch now p s else s)
    ∧ db'.orders =
      (if 0 < (db'.shipments.filter (fun s => s.order_id == s0.order_id)).length ∧
          (db'.shipments.filter (fun s => s.order_id == s0.order_id)).length =
            ((db'.shipments.filter (fun s => s.order_id == s0.order_id)).filter
              (fun s => s.status == "delivered")).length
       then db.orders.map (fun o =>
          if o.order_id == s0.order_id then
            { o with cp := { o.cp with is_complete := true }, completed_at := some now }
          else o)
       else db.orders)
    ∧ db'.lineItems = db.lineItems ∧ db'.events = db.events := by
  unfold updateShipment at h
  by_cases h1 : badStatus p = true
  · rw [if_pos h1] at h
    exact absurd h (by simp)
  · rw [if_neg h1] at h
    by_cases h2 : badMethod p = true
    · rw [if_pos h2] at h
      exact absurd h (by simp)
    · rw [if_neg h2] at h
      rw [if_neg (by simp [hne])] at h
      simp only [hf] at h
      injection h with h3
      subst h3
      simp [applyPatch_order_id]

def c3Db : DB :=
  { orders := [mkOrder "5307" ⟨false, false, false, false, false, false⟩], lineItems := [],
    shipments := [mkShipment "5307" "5307-LI" "LI" "delivered"], events := [],
    wmap := [], trusted := [] }

def c3Patch : ShipmentPatch :=
  { status := some "needs_order", tracking := none, pro_number := none,
    weight := none, ship_method := none, bol_sent := none }

/-- C3 counterexample: a `delivered` shipment is moved back to
`needs_order` by a successful `update_shipment` call — the resulting status
is an earlier lifecycle state than before, so the status does not only move
forward. -/
theorem shipment_backward_move_allowed :
    ∃ db' : DB, updateShipment c3Db 0 "5307-LI" c3Patch = Except.ok db'
      ∧ (∀ s ∈ c3Db.shipments, s.status = "delivered")
      ∧ (∀ s ∈ db'.shipments, s.status = "needs_order")
      ∧ statusIdx "needs_order" < statusIdx "delivered" := by
  refine ⟨_, rfl, by decide, by decide, by decide⟩

/-- C3 (amended): `update_shipment` validates the status VALUE, not the
transition: a non-empty unrecognized status is rejected before any
mutation, and a successful call sets the row found by shipment id to
exactly the requested status — which may be any of the six lifecycle
states, also one earlier than the current state. -/
theorem shipment_update_validates_value_only (db : DB) (now : Nat) (sid : String)
    (p : ShipmentPatch) (st : String) (hst : p.status = some st) :
    (st ∉ valid_statuses → st ≠ "" → updateShipment db now sid p = Except.error "invalid_status")
    ∧ (∀ db' : DB, updateShipment db now sid p = Except.ok db' → st = "" ∨ st ∈ valid_statuses)
    ∧ (∀ db' : DB, updateShipment db now sid p = Except.ok db' →
        ∀ s ∈ db'.shipments, s.shipment_id = sid → s.status = st) := by
  have hbs : st ∉ valid_statuses → st ≠ "" → badStatus p = true := by
    intro hnv hne
    have hc : valid_statuses.contains st = false := by
      by_contra hc2
      simp only [Bool.not_eq_false] at hc2
      exact hnv (by simpa [List.contains, List.elem_iff] using hc2)
    simpa [badStatus, hst, hne, hc] using hnv
  refine ⟨?_, ?_, ?_⟩
  · intro hnv hne
    unfold updateShipment
    rw [if_pos (hbs hnv hne)]
  · intro db' h
    by_cases he : st = ""
    · exact Or.inl he
    · by_cases hv : st ∈ valid_statuses
      · exact Or.inr hv
      · exfalso
        unfold updateShipment at h
        rw [if_pos (hbs hv he)] at h
        exact absurd h (by simp)
  · intro db' h s hs hsid
    unfold updateShipment at h
    by_cases h1 : badStatus p = true
    · rw [if_pos h1] at h
      exact absurd h (by simp)
    · rw [if_neg h1] at h
      by_cases h2 : badMethod p = true
      · rw [if_pos h2] at h
        exact absurd h (by simp)
      · rw [if_neg h2] at h
        rw [if_neg (by simp [patchEmpty_of_status p st hst])] at h
        cases hfind : db.shipments.find? (fun s => s.shipment_id == sid) with
        | none =>
          rw [hfind] at h
          exact absurd h (by simp)
        | some s0 =>
          simp only [hfind] at h
          injection h with h3
          subst h3
          obtain ⟨s1, hs1, rfl⟩ := List.mem_map.mp hs
          by_cases hb : (s1.shipment_id == sid) = true
          · rw [if_pos hb]
            exact applyPatch_status now p s1 st hst
          · rw [if_neg hb] at hsid
            exact absurd (beq_iff_eq.mpr hsid) hb

/-- C3 witness: the amended theorem at the concrete backward move of the
counterexample database. -/
theorem shipment_update_validates_value_only_witness :
    ("needs_order" ∉ valid_statuses → "needs_order" ≠ "" →
      updateShipment c3Db 0 "5307-LI" c3Patch = Except.error "invalid_status")
    ∧ (∀ db' : DB, updateShipment c3Db 0 "5307-LI" c3Patch = Except.ok db' →
        "needs_order" = "" ∨ "needs_order" ∈ valid_statuses)
    ∧ (∀ db' : DB, updateShipment c3Db 0 "5307-LI" c3Patch = Except.ok db' →
        ∀ s ∈ db'.shipments, s.shipment_id = "5307-LI" → s.status = "needs_order") :=
  shipment_update_validates_value_only c3Db 0 "5307-LI" c3Patch "needs_order" rfl

/-- C4: after a successful shipment update, if every shipment of the parent
order is `delivered` (and there is at least one), the order is marked
complete with `completed_at` stamped; if some sibling is still
non-delivered, the orders table is left untouched, so `is_complete` stays
false. -/
theorem shipment_rollup_completion (db : DB) (now : Nat) (sid : String) (p : ShipmentPatch)
    (db' : DB) (s0 : Shipment)
    (hf : db.shipments.find? (fun s => s.shipment_id == sid) = some s0)
    (hne : patchEmpty p = false)
    (h : updateShipment db now sid p = Except.ok db') :
    ((db'.shipments.filter (fun s => s.order_id == s0.order_id) ≠ [] ∧
      (∀ s ∈ db'.shipments, s.order_id = s0.order_id → s.status = "delivered")) →
      ∀ o ∈ db'.orders, o.order_id = s0.order_id →
        o.cp.is_complete = true ∧ o.completed_at = some now)
    ∧ ((∃ s ∈ db'.shipments, s.order_id = s0.order_id ∧ s.status ≠ "delivered") →
      db'.orders = db.orders) := by
  obtain ⟨hS, hO, _, _⟩ := updateShipment_ok_spec db now sid p db' s0 hf hne h
  constructor
  · rintro ⟨hsub, hall⟩ o ho hoid
    have hcond : 0 < (db'.shipments.filter (fun s => s.order_id == s0.order_id)).length ∧
        (db'.shipments.filter (fun s => s.order_id == s0.order_id)).length =
          ((db'.shipments.filter (fun s => s.order_id == s0.order_id)).filter
            (fun s => s.status == "delivered")).length := by
      constructor
      · exact List.length_pos.mpr hsub
      · have heq : (db'.shipments.filter (fun s => s.order_id == s0.order_id)).filter
            (fun s => s.status == "delivered") =
            db'.shipments.filter (fun s => s.order_id == s0.order_id) := by
          apply List.filter_eq_self.mpr
          intro s hsmem
          have h1 := List.mem_filter.mp hsmem
          exact beq_iff_eq.mpr (hall s h1.1 (beq_iff_eq.mp h1.2))
        rw [heq]
    rw [if_pos hcond] at hO
    rw [hO] at ho
    obtain ⟨o0, ho0, rfl⟩ := List.mem_map.mp ho
    by_cases hb : (o0.order_id == s0.order_id) = true
    · rw [if_pos hb]
      exact ⟨rfl, rfl⟩
    · rw [if_neg hb] at hoid
      exact absurd (beq_iff_eq.mpr hoid) hb
  · rintro ⟨s, hs, hsoid, hsdel⟩
    have hcond : ¬ (0 < (db'.shipments.filter (fun s => s.order_id == s0.order_id)).length ∧
        (db'.shipments.filter (fun s => s.order_id == s0.order_id)).length =
          ((db'.shipments.filter (fun s => s.order_id == s0.order_id)).filter
            (fun s => s.status == "delivered")).length) := by
      rintro ⟨-, hlen⟩
      have hsublist := List.filter_sublist
        (p := fun s => s.status == "delivered")
        (db'.shipments.filter (fun s => s.order_id == s0.order_id))
      have heq := hsublist.eq_of_length hlen.symm
      have hallmem := List.filter_eq_self.mp heq
      have hsmem : s ∈ db'.shipments.filter (fun s => s.order_id == s0.order_id) :=
        List.mem_filter.mpr ⟨hs, beq_iff_eq.mpr hsoid⟩
      exact hsdel (beq_iff_eq.mp (hallmem s hsmem))
    rw [if_neg hcond] at hO
    exact hO

def c4Db : DB :=
  { orders := [mkOrder "77" ⟨false, false, false, false, false, false⟩], lineItems := [],
    shipments := [mkShipment "77" "77-A" "A" "shipped", mkShipment "77" "77-B" "B" "shipped"],
    events := [], wmap := [], trusted := [] }

def c4Patch : ShipmentPatch :=
  { status := some "delivered", tracking := none, pro_number := none,
    weight := none, ship_method := none, bol_sent := none }

def c4Out : DB :=
  { orders := [mkOrder "77" ⟨false, false, false, false, false, false⟩], lineItems := [],
    shipments := [{ mkShipment "77" "77-A" "A" "delivered" with delivered_at := some 5 },
                  mkShipment "77" "77-B" "B" "shipped"],
    events := [], wmap := [], trusted := [] }

/-- C4 witness: marking shipment `77-A` delivered while its sibling `77-B`
is still `shipped` leaves the order untouched. -/
theorem shipment_rollup_completion_witness :
    ((c4Out.shipments.filter (fun s => s.order_id == "77") ≠ [] ∧
      (∀ s ∈ c4Out.shipments, s.order_id = "77" → s.status = "delivered")) →
      ∀ o ∈ c4Out.orders, o.order_id = "77" →
        o.cp.is_complete = true ∧ o.completed_at = some 5)
    ∧ ((∃ s ∈ c4Out.shipments, s.order_id = "77" ∧ s.status ≠ "delivered") →
      c4Out.orders = c4Db.orders) :=
  shipment_rollup_completion c4Db 5 "77-A" c4Patch c4Out
    (mkShipment "77" "77-A" "A" "shipped") rfl rfl rfl

/-! ## Claim C2 — sync reconciler idempotence -/

theorem fanOutStep_hasSid_mono (oid : String) (st : List Shipment) (wh sid' : String)
    (h : st.any (fun s => s.shipment_id == sid') = true) :
    (fanOutStep oid st wh).any (fun s => s.shipment_id == sid') = true := by
  simp only [fanOutStep]
  split_ifs with hc
  · exact h
  · simp only [List.any_append, h, Bool.true_or]

theorem fanOutStep_creates (oid : String) (st : List Shipment) (wh : String) :
    (fanOutStep oid st wh).any
      (fun s => s.shipment_id == (oid ++ "-" ++ normWh wh)) = true := by
  simp only [fanOutStep]
  split_ifs with hc
  · exact hc
  · simp [List.any_append]

theorem fanOut_hasSid_mono (oid : String) :
    ∀ (whs : List String) (st : List Shipment) (sid' : String),
      st.any (fun s => s.shipment_id == sid') = true →
      (fanOut oid st whs).any (fun s => s.shipment_id == sid') = true := by
  intro whs
  induction whs with
  | nil => intro st sid' h; exact h
  | cons w ws ih =>
    intro st sid' h
    exact ih (fanOutStep oid st w) sid' (fanOutStep_hasSid_mono oid st w sid' h)

theorem fanOut_present (oid : String) :
    ∀ (whs : List String) (st : List Shipment), ∀ wh ∈ whs,
      (fanOut oid st whs).any
        (fun s => s.shipment_id == (oid ++ "-" ++ normWh wh)) = true := by
  intro whs
  induction whs with
  | nil => intro st wh h; simp at h
  | cons w ws ih =>
    intro st wh hmem
    rcases List.mem_cons.mp hmem with rfl | h2
    · exact fanOut_hasSid_mono oid ws (fanOutStep oid st wh) _ (fanOutStep_creates oid st wh)
    · exact ih (fanOutStep oid st w) wh h2

theorem fanOut_noop (oid : String) :
    ∀ (whs : List String) (st : List Shipment),
      (∀ wh ∈ whs, st.any (fun s => s.shipment_id == (oid ++ "-" ++ normWh wh)) = true) →
      fanOut oid st whs = st := by
  intro whs
  induction whs with
  | nil => intro st _; rfl
  | cons w ws ih =>
    intro st h
    have hstep : fanOutStep oid st w = st := by
      simp only [fanOutStep]
      rw [if_pos (h w (List.mem_cons_self w ws))]
    show fanOut oid (fanOutStep oid st w) ws = st
    rw [hstep]
    exact ih st (fun wh hm => h wh (List.mem_cons_of_mem w hm))

theorem fanOut_idem (oid : String) (whs : List String) (st : List Shipment) :
    fanOut oid (fanOut oid st whs) whs = fanOut oid st whs :=
  fanOut_noop oid whs _ (fun wh hm => fanOut_present oid whs st wh hm)

theorem fanOutStep_nodup (oid : String) (st : List Shipment) (wh : String)
    (h : (st.map (fun s => s.shipment_id)).Nodup) :
    ((fanOutStep oid st wh).map (fun s => s.shipment_id)).Nodup := by
  simp only [fanOutStep]
  split_ifs with hc
  · exact h
  · rw [List.map_append]
    refine List.Nodup.append h (by simp) ?_
    intro a ha hb
    simp only [List.map_cons, List.map_nil, List.mem_singleton] at hb
    subst hb
    obtain ⟨s, hs, hsid⟩ := List.mem_map.mp ha
    have h2 : st.any (fun s => s.shipment_id == (oid ++ "-" ++ normWh wh)) = true :=
      List.any_eq_true.mpr ⟨s, hs, beq_iff_eq.mpr hsid⟩
    rw [h2] at hc
    simp at hc

theorem fanOut_nodup (oid : String) :
    ∀ (whs : List String) (st : List Shipment),
      (st.map (fun s => s.shipment_id)).Nodup →
      ((fanOut oid st whs).map (fun s => s.shipment_id)).Nodup := by
  intro whs
  induction whs with
  | nil => intro st h; exact h
  | cons w ws ih => intro st h; exact ih (fanOutStep oid st w) (fanOutStep_nodup oid st w h)

theorem syncLineItems_oid (wmap : List WhMap) (oid : String) (items : List SnapItem) :
    ∀ li ∈ syncLineItems wmap oid items, li.order_id = oid := by
  intro li hli
  obtain ⟨it, hit, rfl⟩ := List.mem_map.mp hli
  rfl

theorem replaceLineItems_idem (cur : List LineItem) (oid : String) (new : List LineItem)
    (hnew : ∀ li ∈ new, li.order_id = oid) :
    replaceLineItems (replaceLineItems cur oid new) oid new = replaceLineItems cur oid new := by
  unfold replaceLineItems
  rw [List.filter_append]
  have h2 : new.filter (fun li => li.order_id ≠ oid) = [] := by
    rw [List.filter_eq_nil_iff]
    intro li hli
    simp [hnew li hli]
  have h1 : (cur.filter (fun li => li.order_id ≠ oid)).filter (fun li => li.order_id ≠ oid)
      = cur.filter (fun li => li.order_id ≠ oid) := by
    rw [List.filter_filter]
    simp only [Bool.and_self]
  rw [h1, h2, List.append_nil]

/-- C2: reconciling the same snapshot twice is idempotent — the second run
leaves the line-item table and the shipment table exactly as the first run
left them (same count, contents and shipment identifiers), and a run never
introduces duplicate shipment identifiers. -/
theorem sync_reconciler_idempotent (db : DB) (snap : Snapshot) :
    (syncOrder (syncOrder db snap) snap).lineItems = (syncOrder db snap).lineItems
    ∧ (syncOrder (syncOrder db snap) snap).shipments = (syncOrder db snap).shipments
    ∧ ((db.shipments.map (fun s => s.shipment_id)).Nodup →
        ((syncOrder db snap).shipments.map (fun s => s.shipment_id)).Nodup) := by
  refine ⟨?_, ?_, ?_⟩
  · exact replaceLineItems_idem db.lineItems snap.id
      (syncLineItems db.wmap snap.id snap.order_products)
      (syncLineItems_oid db.wmap snap.id snap.order_products)
  · exact fanOut_idem snap.id (syncWarehouses db.wmap snap.order_products) db.shipments
  · intro h
    exact fanOut_nodup snap.id (syncWarehouses db.wmap snap.order_products) db.shipments h

/-! ## Claims C5, C8, C10 — the shipping quote aggregation -/

theorem weight_ge_100 (items : List CkItem) : 100 ≤ calculate_shipment_weight items :=
  le_max_right _ _

theorem select_ltl (w : ℚ) (items : List CkItem) (h : 100 ≤ w) :
    select_shipping_method w items = "ltl" := by
  unfold select_shipping_method SMALL_PACKAGE_WEIGHT_LIMIT
  rw [if_neg]
  intro h2
  linarith

/-- What one loop iteration records for a group: the entry's warehouse and
items are the group's, a failed quote leaves a zero cost, and the entry is
either the `UNKNOWN` failure record or an LTL entry whose success flag came
from an R+L quote call. -/
def StepEntry (rlQ : RlOracle) (dz : String) (g : String × List CkItem)
    (r : GroupResult) : Prop :=
  r.warehouse = g.1 ∧ r.items = g.2
  ∧ (r.quote_success = false → r.shipping_cost = 0)
  ∧ ((r.warehouse = "UNKNOWN" ∧ r.shipping_method = "unknown" ∧
        r.quote_success = false ∧ r.shipping_cost = 0)
     ∨ (r.shipping_method = "ltl" ∧
        ∃ z w ov, r.quote_success = (rlQ z dz w true ov).success))

theorem quoteStep_spec (spQ : ShippoOracle) (rlQ : RlOracle) (dz : String)
    (acc : List GroupResult × ℚ) (g : String × List CkItem) :
    ((quoteStep spQ rlQ dz acc g).1 = acc.1 ∧ (quoteStep spQ rlQ dz acc g).2 = acc.2)
    ∨ ∃ r, (quoteStep spQ rlQ dz acc g).1 = acc.1 ++ [r]
        ∧ (quoteStep spQ rlQ dz acc g).2 = acc.2 + r.shipping_cost
        ∧ StepEntry rlQ dz g r := by
  by_cases hU : g.1 = "UNKNOWN"
  · right
    refine ⟨⟨"UNKNOWN", "Unknown Warehouse", none, g.2, none, none, "unknown", false, 0⟩,
      ?_, ?_, ?_⟩
    · simp [quoteStep, hU]
    · simp [quoteStep, hU]
    · exact ⟨hU.symm, rfl, fun _ => rfl, Or.inl ⟨rfl, rfl, rfl, rfl⟩⟩
  · cases hW : (WAREHOUSES.find? (fun kv => kv.1 == g.1)).map (fun kv => kv.2) with
    | none =>
      left
      constructor <;> simp [quoteStep, hU, hW]
    | some wh =>
      right
      have hm := select_ltl (calculate_shipment_weight g.2) g.2 (weight_ge_100 g.2)
      refine ⟨{ warehouse := g.1, warehouse_name := wh.name, origin_zip := some wh.zip,
                items := g.2, weight := some (calculate_shipment_weight g.2),
                oversized := some (g.2.any (fun it => is_oversized it.name)),
                shipping_method := "ltl",
                quote_success := (rlQ wh.zip dz (calculate_shipment_weight g.2) true
                  (g.2.any (fun it => is_oversized it.name))).success,
                shipping_cost :=
                  if (rlQ wh.zip dz (calculate_shipment_weight g.2) true
                      (g.2.any (fun it => is_oversized it.name))).success
                  then (match (rlQ wh.zip dz (calculate_shipment_weight g.2) true
                          (g.2.any (fun it => is_oversized it.name))).quote with
                        | some b => b.customer_price | none => 0)
                  else 0 }, ?_, ?_, ?_⟩
      · simp [quoteStep, hU, hW, hm]
      · simp [quoteStep, hU, hW, hm]
      · refine ⟨rfl, rfl, ?_, Or.inr ⟨rfl, wh.zip, calculate_shipment_weight g.2,
          g.2.any (fun it => is_oversized it.name), rfl⟩⟩
        intro hf
        have hf2 : (rlQ wh.zip dz (calculate_shipment_weight g.2) true
            (g.2.any (fun it => is_oversized it.name))).success = false := hf
        simp [hf2]

theorem quoteFold_mono (spQ : ShippoOracle) (rlQ : RlOracle) (dz : String) :
    ∀ (gs : List (String × List CkItem)) (acc : List GroupResult × ℚ) (r : GroupResult),
      r ∈ acc.1 → r ∈ (gs.foldl (quoteStep spQ rlQ dz) acc).1 := by
  intro gs
  induction gs with
  | nil => intro acc r h; exact h
  | cons g gst ih =>
    intro acc r h
    apply ih
    rcases quoteStep_spec spQ rlQ dz acc g with ⟨h1, -⟩ | ⟨r2, h1, -, -⟩
    · rw [h1]; exact h
    · rw [h1]; exact List.mem_append_left _ h

theorem quoteFold_all (spQ : ShippoOracle) (rlQ : RlOracle) (dz : String)
    (P : GroupResult → Prop) (hP : ∀ g r, StepEntry rlQ dz g r → P r) :
    ∀ (gs : List (String × List CkItem)) (acc : List GroupResult × ℚ),
      (∀ r ∈ acc.1, P r) → ∀ r ∈ (gs.foldl (quoteStep spQ rlQ dz) acc).1, P r := by
  intro gs
  induction gs with
  | nil => intro acc hacc r h; exact hacc r h
  | cons g gst ih =>
    intro acc hacc r h
    refine ih _ ?_ r h
    rcases quoteStep_spec spQ rlQ dz acc g with ⟨h1, -⟩ | ⟨r2, h1, -, hSE⟩
    · rw [h1]; exact hacc
    · rw [h1]
      intro x hx
      rcases List.mem_append.mp hx with hx1 | hx2
      · exact hacc x hx1
      · rw [List.mem_singleton.mp hx2]
        exact hP g r2 hSE

/-- Sum of the recorded per-group shipping costs. -/
def sumCosts (l : List GroupResult) : ℚ := (l.map (fun r => r.shipping_cost)).sum

theorem sumCosts_append (l : List GroupResult) (x : GroupResult) :
    sumCosts (l ++ [x]) = sumCosts l + x.shipping_cost := by
  simp [sumCosts]

theorem quoteFold_snd (spQ : ShippoOracle) (rlQ : RlOracle) (dz : String) :
    ∀ (gs : List (String × List CkItem)) (acc : List GroupResult × ℚ),
      acc.2 = sumCosts acc.1 →
      (gs.foldl (quoteStep spQ rlQ dz) acc).2 = sumCosts (gs.foldl (quoteStep spQ rlQ dz) acc).1 := by
  intro gs
  induction gs with
  | nil => intro acc h; exact h
  | cons g gst ih =>
    intro acc h
    refine ih _ ?_
    rcases quoteStep_spec spQ rlQ dz acc g with ⟨h1, h2⟩ | ⟨r2, h1, h2, -⟩
    · rw [h1, h2]; exact h
    · rw [h1, h2, sumCosts_append, h]

theorem quoteFold_unknown (spQ : ShippoOracle) (rlQ : RlOracle) (dz : String) :
    ∀ (gs : List (String × List CkItem)) (acc : List GroupResult × ℚ) (its : List CkItem),
      ("UNKNOWN", its) ∈ gs →
      ∃ r ∈ (gs.foldl (quoteStep spQ rlQ dz) acc).1,
        r.warehouse = "UNKNOWN" ∧ r.items = its ∧ r.quote_success = false ∧
        r.shipping_cost = 0 := by
  intro gs
  induction gs with
  | nil => intro acc its h; simp at h
  | cons g gst ih =>
    intro acc its h
    rcases List.mem_cons.mp h with heq | h2
    · have hfst : (quoteStep spQ rlQ dz acc g).1 = acc.1 ++
          [⟨"UNKNOWN", "Unknown Warehouse", none, its, none, none, "unknown", false, 0⟩] := by
        rw [← heq]
        simp [quoteStep]
      refine ⟨⟨"UNKNOWN", "Unknown Warehouse", none, its, none, none, "unknown", false, 0⟩,
        ?_, rfl, rfl, rfl, rfl⟩
      have hmem : (⟨"UNKNOWN", "Unknown Warehouse", none, its, none, none,
          "unknown", false, 0⟩ : GroupResult) ∈ (quoteStep spQ rlQ dz acc g).1 := by
        rw [hfst]
        exact List.mem_append_right _ (by simp)
      exact quoteFold_mono spQ rlQ dz gst (quoteStep spQ rlQ dz acc g) _ hmem
    · exact ih _ its h2

theorem quoteStep_wh (spQ : ShippoOracle) (rlQ : RlOracle) (dz : String)
    (acc : List GroupResult × ℚ) (g : String × List CkItem) :
    (quoteStep spQ rlQ dz acc g).1.map (fun r => r.warehouse)
      = acc.1.map (fun r => r.warehouse) ++
        (if g.1 = "UNKNOWN" then ["UNKNOWN"]
         else match (WAREHOUSES.find? (fun kv => kv.1 == g.1)).map (fun kv => kv.2) with
              | none => [] | some _ => [g.1]) := by
  by_cases hU : g.1 = "UNKNOWN"
  · simp [quoteStep, hU]
  · cases hW : (WAREHOUSES.find? (fun kv => kv.1 == g.1)).map (fun kv => kv.2) with
    | none => simp [quoteStep, hU, hW]
    | some wh =>
      have hm := select_ltl (calculate_shipment_weight g.2) g.2 (weight_ge_100 g.2)
      simp [quoteStep, hU, hW, hm]

theorem quoteFold_wh (dz : String) :
    ∀ (gs : List (String × List CkItem)) (spQ1 : ShippoOracle) (rlQ1 : RlOracle)
      (spQ2 : ShippoOracle) (rlQ2 : RlOracle) (acc1 acc2 : List GroupResult × ℚ),
      acc1.1.map (fun r => r.warehouse) = acc2.1.map (fun r => r.warehouse) →
      (gs.foldl (quoteStep spQ1 rlQ1 dz) acc1).1.map (fun r => r.warehouse)
        = (gs.foldl (quoteStep spQ2 rlQ2 dz) acc2).1.map (fun r => r.warehouse) := by
  intro gs
  induction gs with
  | nil => intro _ _ _ _ acc1 acc2 h; exact h
  | cons g gst ih =>
    intro spQ1 rlQ1 spQ2 rlQ2 acc1 acc2 h
    apply ih
    rw [quoteStep_wh, quoteStep_wh, h]

theorem quote_fail_cost_zero (spQ : ShippoOracle) (rlQ : RlOracle)
    (items : List CkItem) (dz : String) :
    ∀ r ∈ (calculate_order_shipping spQ rlQ items dz).shipments,
      r.quote_success = false → r.shipping_cost = 0 := by
  have hP : ∀ g r, StepEntry rlQ dz g r → (r.quote_success = false → r.shipping_cost = 0) :=
    fun g r hSE => hSE.2.2.1
  exact quoteFold_all spQ rlQ dz _ hP (group_items_by_warehouse items) ([], 0) (by simp)

theorem sumCosts_filter_success (l : List GroupResult)
    (h : ∀ r ∈ l, r.quote_success = false → r.shipping_cost = 0) :
    sumCosts l = sumCosts (l.filter (fun r => r.quote_success)) := by
  induction l with
  | nil => rfl
  | cons x xs ih =>
    have hxs : ∀ r ∈ xs, r.quote_success = false → r.shipping_cost = 0 :=
      fun r hr => h r (List.mem_cons_of_mem x hr)
    cases hx : x.quote_success with
    | true =>
      simp only [sumCosts, List.map_cons, List.sum_cons, List.filter_cons, hx, if_true]
      rw [show (xs.map (fun r => r.shipping_cost)).sum = sumCosts xs from rfl, ih hxs]
      rfl
    | false =>
      have hx0 : x.shipping_cost = 0 := h x (List.mem_cons_self x xs) hx
      simp only [sumCosts, List.map_cons, List.sum_cons, List.filter_cons, hx, hx0]
      rw [show (xs.map (fun r => r.shipping_cost)).sum = sumCosts xs from rfl, ih hxs]
      simp [sumCosts]

theorem quote_total_shipping_sum (spQ : ShippoOracle) (rlQ : RlOracle)
    (items : List CkItem) (dz : String) :
    (calculate_order_shipping spQ rlQ items dz).total_shipping
      = round2 (sumCosts (calculate_order_shipping spQ rlQ items dz).shipments) := by
  have hsnd := quoteFold_snd spQ rlQ dz (group_items_by_warehouse items) ([], 0)
    (by simp [sumCosts])
  show round2 (quoteGroups spQ rlQ dz (group_items_by_warehouse items)).2 = _
  rw [show (quoteGroups spQ rlQ dz (group_items_by_warehouse items)).2
      = sumCosts (quoteGroups spQ rlQ dz (group_items_by_warehouse items)).1 from hsnd]
  rfl

theorem all_rl_fail_costs_zero (spQ : ShippoOracle) (rlQ : RlOracle)
    (items : List CkItem) (dz : String)
    (hrl : ∀ z w ov, (rlQ z dz w true ov).success = false) :
    ∀ r ∈ (calculate_order_shipping spQ rlQ items dz).shipments, r.shipping_cost = 0 := by
  have hP : ∀ g r, StepEntry rlQ dz g r → r.shipping_cost = 0 := by
    rintro g r ⟨-, -, hf, hd⟩
    rcases hd with ⟨-, -, -, hc0⟩ | ⟨-, z, w, ov, hsucc⟩
    · exact hc0
    · exact hf (by rw [hsucc, hrl])
  exact quoteFold_all spQ rlQ dz _ hP (group_items_by_warehouse items) ([], 0) (by simp)

theorem isCents_sumCosts (l : List GroupResult)
    (h : ∀ r ∈ l, isCents r.shipping_cost) : isCents (sumCosts l) := by
  induction l with
  | nil => exact isCents_zero
  | cons x xs ih =>
    have : sumCosts (x :: xs) = x.shipping_cost + sumCosts xs := by simp [sumCosts]
    rw [this]
    exact isCents_add (h x (List.mem_cons_self x xs))
      (ih (fun r hr => h r (List.mem_cons_of_mem x hr)))

theorem isCents_itemsSubtotal_aux (items : List CkItem) :
    ∀ a : ℚ, isCents a → (∀ it ∈ items, isCents it.price) →
      isCents (items.foldl (fun acc it => acc + it.price * (it.quantity : ℚ)) a) := by
  induction items with
  | nil => intro a ha _; exact ha
  | cons hd tl ih =>
    intro a ha h
    exact ih _ (isCents_add ha (isCents_intMul hd.quantity (h hd (List.mem_cons_self hd tl))))
      (fun it hit => h it (List.mem_cons_of_mem hd hit))

theorem isCents_itemsSubtotal (items : List CkItem)
    (h : ∀ it ∈ items, isCents it.price) : isCents (itemsSubtotal items) :=
  isCents_itemsSubtotal_aux items 0 isCents_zero h

/-- C10: the weight estimator floors every group weight at 100 lb; any
weight at or above 100 lb is at or above the 70 lb small-package cutoff, so
the method selector returns `ltl`, and consequently no recorded group of
`calculate_order_shipping` ever carries the `small_package` method — the
Shippo branch is unreachable from the pipeline. -/
theorem weight_floor_forces_ltl :
    (∀ items : List CkItem, 100 ≤ calculate_shipment_weight items)
    ∧ (∀ (w : ℚ) (items : List CkItem), 100 ≤ w → select_shipping_method w items = "ltl")
    ∧ (∀ (spQ : ShippoOracle) (rlQ : RlOracle) (items : List CkItem) (dz : String),
        ∀ r ∈ (calculate_order_shipping spQ rlQ items dz).shipments,
          r.shipping_method ≠ "small_package") := by
  refine ⟨weight_ge_100, select_ltl, ?_⟩
  intro spQ rlQ items dz
  have hP : ∀ g r, StepEntry rlQ dz g r → r.shipping_method ≠ "small_package" := by
    rintro g r ⟨-, -, -, hd⟩
    rcases hd with ⟨-, hm, -, -⟩ | ⟨hm, -⟩ <;> rw [hm] <;> decide
  exact quoteFold_all spQ rlQ dz _ hP (group_items_by_warehouse items) ([], 0) (by simp)

/-- C8: per-group quote failures are isolated — a failed group is recorded
with `success = false` and zero cost while the order total still sums the
groups (so only successful ones contribute); every unresolved item is
reported inside the distinct `UNKNOWN` group, which carries a quote failure
and zero cost, and still counts in the item subtotal, which ranges over all
line items; and which groups get quoted is entirely independent of the
quote outcomes, so one group's failure never drops another group. -/
theorem quote_partial_failure_isolated :
    ∀ (spQ : ShippoOracle) (rlQ : RlOracle) (items : List CkItem) (dz : String),
      (∀ r ∈ (calculate_order_shipping spQ rlQ items dz).shipments,
        r.quote_success = false → r.shipping_cost = 0)
      ∧ (calculate_order_shipping spQ rlQ items dz).total_shipping
          = round2 (sumCosts ((calculate_order_shipping spQ rlQ items dz).shipments.filter
              (fun r => r.quote_success)))
      ∧ (∀ it ∈ items, get_warehouse_for_sku it.sku = none →
          ∃ r ∈ (calculate_order_shipping spQ rlQ items dz).shipments,
            r.warehouse = "UNKNOWN" ∧ r.quote_success = false ∧ r.shipping_cost = 0 ∧
            it ∈ r.items)
      ∧ (calculate_order_shipping spQ rlQ items dz).total_items
          = round2 (itemsSubtotal items)
      ∧ (∀ (spQ2 : ShippoOracle) (rlQ2 : RlOracle),
          (calculate_order_shipping spQ2 rlQ2 items dz).shipments.map (fun r => r.warehouse)
            = (calculate_order_shipping spQ rlQ items dz).shipments.map
                (fun r => r.warehouse)) := by
  intro spQ rlQ items dz
  refine ⟨quote_fail_cost_zero spQ rlQ items dz, ?_, ?_, rfl, ?_⟩
  · rw [quote_total_shipping_sum spQ rlQ items dz,
      sumCosts_filter_success _ (quote_fail_cost_zero spQ rlQ items dz)]
  · intro it hit hn
    obtain ⟨its, hg, hits⟩ := group_unknown_item items it hit hn
    obtain ⟨r, hr, hWU, hritems, hsucc, hcost⟩ :=
      quoteFold_unknown spQ rlQ dz (group_items_by_warehouse items) ([], 0) its hg
    exact ⟨r, hr, hWU, hsucc, hcost, hritems ▸ hits⟩
  · intro spQ2 rlQ2
    exact quoteFold_wh dz (group_items_by_warehouse items) spQ2 rlQ2 spQ rlQ ([], 0) ([], 0) rfl

/-- C5: with all currency inputs carrying the two-decimal precision the
spec's numeric semantics prescribe, the returned totals satisfy
`grand_total = total_items + total_shipping` exactly for every combination
of successful and failed per-group quotes; `total_items` is exactly the sum
of price times quantity over ALL line items (items of failed or unknown
groups included), and `total_shipping` is exactly the sum of the shipping
costs of the successful groups alone. -/
theorem order_quote_totals_identity (spQ : ShippoOracle) (rlQ : RlOracle)
    (items : List CkItem) (dz : String)
    (hp : ∀ it ∈ items, isCents it.price)
    (hc : ∀ r ∈ (calculate_order_shipping spQ rlQ items dz).shipments,
      isCents r.shipping_cost) :
    (calculate_order_shipping spQ rlQ items dz).grand_total
      = (calculate_order_shipping spQ rlQ items dz).total_items
        + (calculate_order_shipping spQ rlQ items dz).total_shipping
    ∧ (calculate_order_shipping spQ rlQ items dz).total_items = itemsSubtotal items
    ∧ (calculate_order_shipping spQ rlQ items dz).total_shipping
        = sumCosts ((calculate_order_shipping spQ rlQ items dz).shipments.filter
            (fun r => r.quote_success)) := by
  have hci : isCents (itemsSubtotal items) := isCents_itemsSubtotal items hp
  have hcs : isCents (sumCosts (calculate_order_shipping spQ rlQ items dz).shipments) :=
    isCents_sumCosts _ hc
  have hsnd := quoteFold_snd spQ rlQ dz (group_items_by_warehouse items) ([], 0)
    (by simp [sumCosts])
  have hti : (calculate_order_shipping spQ rlQ items dz).total_items = itemsSubtotal items := by
    show round2 (itemsSubtotal items) = itemsSubtotal items
    exact round2_cents hci
  have hts : (calculate_order_shipping spQ rlQ items dz).total_shipping
      = sumCosts (calculate_order_shipping spQ rlQ items dz).shipments := by
    rw [quote_total_shipping_sum spQ rlQ items dz]
    exact round2_cents hcs
  refine ⟨?_, hti, ?_⟩
  · show round2 (itemsSubtotal items
        + (quoteGroups spQ rlQ dz (group_items_by_warehouse items)).2) = _
    rw [show (quoteGroups spQ rlQ dz (group_items_by_warehouse items)).2
        = sumCosts (calculate_order_shipping spQ rlQ items dz).shipments from hsnd]
    rw [round2_cents (isCents_add hci hcs), hti, hts]
  · rw [hts]
    exact sumCosts_filter_success _ (quote_fail_cost_zero spQ rlQ items dz)

def c5Items : List CkItem :=
  [{ sku := "WSP-B12", name := "Wall Cabinet", price := 1999/100, quantity := 2 }]

def c5Sp : ShippoOracle := fun _ _ _ _ => { success := false, cheapest := none }

def c5Rl : RlOracle := fun _ _ _ _ _ => { success := false, quote := none }

/-- C5 witness: the totals identity at a concrete one-item order routed to
warehouse LI whose freight quote fails. -/
theorem order_quote_totals_identity_witness :
    (calculate_order_shipping c5Sp c5Rl c5Items "32148").grand_total
      = (calculate_order_shipping c5Sp c5Rl c5Items "32148").total_items
        + (calculate_order_shipping c5Sp c5Rl c5Items "32148").total_shipping
    ∧ (calculate_order_shipping c5Sp c5Rl c5Items "32148").total_items
        = itemsSubtotal c5Items
    ∧ (calculate_order_shipping c5Sp c5Rl c5Items "32148").total_shipping
        = sumCosts ((calculate_order_shipping c5Sp c5Rl c5Items "32148").shipments.filter
            (fun r => r.quote_success)) :=
  order_quote_totals_identity c5Sp c5Rl c5Items "32148"
    (by
      intro it hit
      rw [List.mem_singleton.mp hit]
      exact (isCents_iff _).mpr ⟨1999, by norm_num⟩)
    (fun r hr => by
      rw [all_rl_fail_costs_zero c5Sp c5Rl c5Items "32148" (fun z w ov => rfl) r hr]
      exact isCents_zero)
